import Mathlib

/-!
Shallow embedding of the Discord Gateway session controller
(`Gateway.cpp`, the scheduler-based version of `Gateway::Impl`).

The controller state is mirrored field by field; methods become pure
functions from a state to a state and a trace of observable effects
(WebSocket sends and closes, scheduler calls, callback invocations,
transport queue operations).  External collaborators (JSON
encoding/decoding, the transport, the scheduler executor) are modelled
at their interfaces: inbound message bodies are carried post-parse as
`Json` values, transport results are supplied as oracle inputs, and
scheduler tokens are supplied as inputs.  Sections of the code that run
with the mutex released (awaits) take an explicit interleaving function
describing what other threads do meanwhile.
-/

namespace Discord

/-- JSON values as produced by the external JSON library
(`Json::Value`); `invalid` is the result of a failed parse
(`Json::Value::Type::Invalid`). -/
inductive Json where
  | null : Json
  | boolean (b : Bool) : Json
  | num (n : ℤ) : Json
  | str (s : String) : Json
  | arr (elements : List Json) : Json
  | obj (members : List (String × Json)) : Json
  | invalid : Json

/-- `value[key]`: member lookup on an object, JSON null on
anything else or when the key is absent. -/
def Json.index (value : Json) (key : String) : Json :=
  match value with
  | .obj members => (members.lookup key).getD Json.null
  | _ => Json.null

/-- Implicit conversion of a JSON value to `std::string`:
the contained string, or empty for any non-string value. -/
def Json.asString : Json → String
  | .str s => s
  | _ => ""

/-- Implicit conversion of a JSON value to `int`:
the contained number, or 0 for any non-number value. -/
def Json.asInt : Json → ℤ
  | .num n => n
  | _ => 0

/-- Implicit conversion of a JSON value to `double`
(time quantities are modelled as rationals). -/
def Json.asRat : Json → ℚ
  | .num n => (n : ℚ)
  | _ => 0

/-- Observable effects of the controller on its collaborators. -/
inductive GEvent where
  | sendText (message : Json) : GEvent
  | wsClose (code : ℕ) : GEvent
  | schedule (token : ℕ) (time : ℚ) : GEvent
  | cancelSchedule (token : ℕ) : GEvent
  | closeCbInvoked : GEvent
  | diag (level : ℕ) (message : String) : GEvent
  | cancelInvoked : GEvent
  | queueRequest (method : String) (uri : String) (userAgent : String) : GEvent
  | queueWebSocket (uri : String) : GEvent

/-- What `cancelCurrentOperation` currently holds: the transport
transaction's cancel delegate, or the lambda that fires the hello
promise (set by `AwaitHelloPromise`). -/
inductive CancelOp where
  | transport : CancelOp
  | helloFire : CancelOp
deriving DecidableEq

/-- The fields of `Gateway::Impl`.  Shared-pointer members are reduced
to presence flags (`webSocket`, `scheduler`, the two callbacks),
`std::promise` members to "has been fired" flags. -/
structure GatewayState where
  awaitingHello : Bool
  disconnect : Bool
  cancelCurrentOperation : Option CancelOp
  closed : Bool
  closeSignaled : Bool
  connecting : Bool
  heartbeatAckReceived : Bool
  heartbeatInterval : ℚ
  heartbeatSchedulerToken : ℕ
  helloSignaled : Bool
  onClose : Bool
  onDiagnosticMessage : Bool
  proceedWithConnect : Bool
  lastSequenceNumber : ℤ
  nextHeartbeatTime : ℚ
  receivedSequenceNumber : Bool
  scheduler : Bool
  storedDiagnosticMessages : List (ℕ × String)
  webSocket : Bool
  webSocketEndpoint : String
deriving DecidableEq

/-- The member initializers of `Gateway::Impl`. -/
def initialState : GatewayState where
  awaitingHello := false
  disconnect := false
  cancelCurrentOperation := none
  closed := false
  closeSignaled := false
  connecting := false
  heartbeatAckReceived := false
  heartbeatInterval := 0
  heartbeatSchedulerToken := 0
  helloSignaled := false
  onClose := false
  onDiagnosticMessage := false
  proceedWithConnect := false
  lastSequenceNumber := 0
  nextHeartbeatTime := 0
  receivedSequenceNumber := false
  scheduler := false
  storedDiagnosticMessages := []
  webSocket := false
  webSocketEndpoint := ""

/-- Actions other threads take while the controller has released its
mutex during an await. -/
def Mid : Type := GatewayState → GatewayState × List GEvent

/-- The interleaving in which no other thread acts during the await. -/
def pureMid : Mid := fun s => (s, [])

/-- `NotifyClose`: sample `onClose`, release the lock, invoke it. -/
def NotifyClose (s : GatewayState) : GatewayState × List GEvent :=
  if s.onClose = true then (s, [GEvent.closeCbInvoked]) else (s, [])

/-- `NotifyDiagnosticMessage`: deliver to the sink when one is set,
otherwise append to `storedDiagnosticMessages`. -/
def NotifyDiagnosticMessage (s : GatewayState) (level : ℕ) (message : String) :
    GatewayState × List GEvent :=
  if s.onDiagnosticMessage = true then (s, [GEvent.diag level message])
  else
    ({s with storedDiagnosticMessages := s.storedDiagnosticMessages ++ [(level, message)]}, [])

/-- `OnClose`: the close funnel.  Idempotent via `closed`; sets
`closed`, emits the level-1 diagnostic, invokes the close callback
outside the lock, then fires `closePromise`. -/
def OnClose (s : GatewayState) : GatewayState × List GEvent :=
  if s.closed = true then (s, [])
  else
    let s1 := {s with closed := true}
    let r1 := NotifyDiagnosticMessage s1 1 "Disconnected from Discord"
    let r2 := NotifyClose r1.1
    ({r2.1 with closeSignaled := true}, r1.2 ++ r2.2)

/-- `UnscheduleHeartbeat`: cancel the pending tick when a scheduler is
set and a token is outstanding. -/
def UnscheduleHeartbeat (s : GatewayState) : GatewayState × List GEvent :=
  if s.scheduler = false ∨ s.heartbeatSchedulerToken = 0 then (s, [])
  else
    ({s with heartbeatSchedulerToken := 0},
     [GEvent.cancelSchedule s.heartbeatSchedulerToken])

/-- `UnscheduleAll`. -/
def UnscheduleAll (s : GatewayState) : GatewayState × List GEvent :=
  UnscheduleHeartbeat s

/-- `ScheduleHeartbeat`: schedule `OnHeartbeatDue` at
`nextHeartbeatTime`.  `tok` is the (nonzero) token the scheduler
returns for the new entry. -/
def ScheduleHeartbeat (s : GatewayState) (tok : ℕ) : GatewayState × List GEvent :=
  if s.scheduler = false ∨ s.webSocket = false ∨ s.closed = true
      ∨ s.heartbeatSchedulerToken ≠ 0 then (s, [])
  else
    ({s with heartbeatSchedulerToken := tok},
     [GEvent.schedule tok s.nextHeartbeatTime])

/-- `ScheduleAll`. -/
def ScheduleAll (s : GatewayState) (tok : ℕ) : GatewayState × List GEvent :=
  ScheduleHeartbeat s tok

/-- The heartbeat text frame
`Json::Object({\x7b"op", 1\x7d, \x7b"d", ...\x7d})`: `d` is the last
sequence number, or JSON null when none has been received. -/
def HeartbeatMessage (s : GatewayState) : Json :=
  Json.obj
    [("op", Json.num 1),
     ("d", if s.receivedSequenceNumber = true
           then Json.num s.lastSequenceNumber else Json.null)]

/-- The `sprintf("Heartbeat interval is %lg seconds", ...)` diagnostic;
numeric formatting is external, modelled abstractly as a function of
the interval. -/
def HeartbeatIntervalMessage (interval : ℚ) : String :=
  "Heartbeat interval is " ++ toString interval ++ " seconds"

/-- `SendHeartbeat`: cancel any pending tick, bail when there is no
WebSocket or the session is closed, mark the ack as outstanding, send
the heartbeat frame, and (when an interval is known) advance
`nextHeartbeatTime` and schedule the next tick.  `now` is the clock
reading, `tok` the token for any new schedule. -/
def SendHeartbeat (s : GatewayState) (now : ℚ) (tok : ℕ) :
    GatewayState × List GEvent :=
  let r1 := UnscheduleHeartbeat s
  if r1.1.webSocket = false ∨ r1.1.closed = true then (r1.1, r1.2)
  else
    let s2 := {r1.1 with heartbeatAckReceived := false}
    let r2 := NotifyDiagnosticMessage s2 0 "Sending heartbeat"
    let sendEvents := [GEvent.sendText (HeartbeatMessage r2.1)]
    if r2.1.heartbeatInterval ≠ 0 then
      let t0 := r2.1.nextHeartbeatTime + r2.1.heartbeatInterval
      let t1 := if t0 ≤ now then now + r2.1.heartbeatInterval else t0
      let s3 := {r2.1 with nextHeartbeatTime := t1}
      let r3 := ScheduleHeartbeat s3 tok
      (r3.1, r1.2 ++ r2.2 ++ sendEvents ++ r3.2)
    else (r2.1, r1.2 ++ r2.2 ++ sendEvents)

/-- `OnHeartbeatDue`: the scheduled tick fired.  Clear the token; when
the previous heartbeat's ack is still pending (and a WebSocket is open
and the session is not closed), close the stream with code 4000 and
funnel into `OnClose`; otherwise send a heartbeat. -/
def OnHeartbeatDue (s : GatewayState) (now : ℚ) (tok : ℕ) :
    GatewayState × List GEvent :=
  let s1 := {s with heartbeatSchedulerToken := 0}
  if s1.heartbeatAckReceived = false ∧ s1.webSocket = true ∧ s1.closed = false then
    let r := OnClose s1
    (r.1, [GEvent.wsClose 4000] ++ r.2)
  else
    SendHeartbeat s1 now tok

/-- `OnHeartbeat` (inbound opcode 1): diagnostic, then send a
heartbeat immediately. -/
def OnHeartbeat (s : GatewayState) (message : Json) (now : ℚ) (tok : ℕ) :
    GatewayState × List GEvent :=
  let r1 := NotifyDiagnosticMessage s 0 "Received heartbeat"
  let r2 := SendHeartbeat r1.1 now tok
  (r2.1, r1.2 ++ r2.2)

/-- `OnHeartbeatAck` (inbound opcode 11): diagnostic, then record that
the ack arrived. -/
def OnHeartbeatAck (s : GatewayState) (message : Json) :
    GatewayState × List GEvent :=
  let r1 := NotifyDiagnosticMessage s 0 "Received heartbeat ACK"
  ({r1.1 with heartbeatAckReceived := true}, r1.2)

/-- `OnHello` (inbound opcode 10): drop unless `awaitingHello`; read
`d.heartbeat_interval` (milliseconds) and store it as seconds; emit the
level-1 diagnostic; send the first heartbeat; fire `helloPromise`. -/
def OnHello (s : GatewayState) (message : Json) (now : ℚ) (tok : ℕ) :
    GatewayState × List GEvent :=
  if s.awaitingHello = false then (s, [])
  else
    let interval := Json.asRat (Json.index (Json.index message "d") "heartbeat_interval") / 1000
    let s1 := {s with awaitingHello := false, heartbeatInterval := interval}
    let r1 := NotifyDiagnosticMessage s1 1 (HeartbeatIntervalMessage interval)
    let r2 := SendHeartbeat r1.1 now tok
    ({r2.1 with helloSignaled := true}, r1.2 ++ r2.2)

/-- `OnText`: parse (the parsed value is supplied alongside the raw
text, parsing being external), discard non-objects at level 10, report
the raw text at level 0, then dispatch on `op` through the handler
table (1, 10, 11); unknown opcodes are reported at level 5. -/
def OnText (s : GatewayState) (raw : String) (messageJson : Json)
    (now : ℚ) (tok : ℕ) : GatewayState × List GEvent :=
  match messageJson with
  | .obj members =>
    let r1 := NotifyDiagnosticMessage s 0
      ("Received text: \"" ++ raw ++ "\"")
    let opcode := Json.asInt (Json.index (Json.obj members) "op")
    if opcode = 1 then
      let r2 := OnHeartbeat r1.1 (Json.obj members) now tok
      (r2.1, r1.2 ++ r2.2)
    else if opcode = 10 then
      let r2 := OnHello r1.1 (Json.obj members) now tok
      (r2.1, r1.2 ++ r2.2)
    else if opcode = 11 then
      let r2 := OnHeartbeatAck r1.1 (Json.obj members)
      (r2.1, r1.2 ++ r2.2)
    else
      let r2 := NotifyDiagnosticMessage r1.1 5
        ("Received message with unknown opcode " ++ toString opcode)
      (r2.1, r1.2 ++ r2.2)
  | _ =>
    NotifyDiagnosticMessage s 10
      ("Invalid text received: \"" ++ raw ++ "\"")

/-- `RegisterCloseCallback` (modelled for a non-null callback):
install the sink, and when already closed invoke it immediately
outside the lock. -/
def RegisterCloseCallback (s : GatewayState) : GatewayState × List GEvent :=
  let s1 := {s with onClose := true}
  if s1.closed = true then NotifyClose s1 else (s1, [])

/-- `RegisterDiagnosticMessageCallback` (modelled for a non-null
callback): install the sink and drain the backlog in order. -/
def RegisterDiagnosticMessageCallback (s : GatewayState) :
    GatewayState × List GEvent :=
  let s1 := {s with onDiagnosticMessage := true}
  if s1.storedDiagnosticMessages ≠ [] then
    ({s1 with storedDiagnosticMessages := []},
     s1.storedDiagnosticMessages.map (fun lm => GEvent.diag lm.1 lm.2))
  else (s1, [])

/-- `Gateway::SetScheduler`: unschedule everything, replace the
scheduler (present or not), reschedule. -/
def SetScheduler (s : GatewayState) (newScheduler : Bool) (tok : ℕ) :
    GatewayState × List GEvent :=
  let r1 := UnscheduleAll s
  let s2 := {r1.1 with scheduler := newScheduler}
  let r2 := ScheduleAll s2 tok
  (r2.1, r1.2 ++ r2.2)

/-- Event classifiers used to state trace properties. -/
def isSendText : GEvent → Bool
  | .sendText _ => true
  | _ => false

def isSchedule : GEvent → Bool
  | .schedule _ _ => true
  | _ => false

def isCancelSchedule : GEvent → Bool
  | .cancelSchedule _ => true
  | _ => false

def isCloseCb : GEvent → Bool
  | .closeCbInvoked => true
  | _ => false

def isWsClose (code : ℕ) : GEvent → Bool
  | .wsClose c => c == code
  | _ => false

def isCancelInvoked : GEvent → Bool
  | .cancelInvoked => true
  | _ => false

def isQueue : GEvent → Bool
  | .queueRequest _ _ _ => true
  | .queueWebSocket _ => true
  | _ => false

/-- Number of close-callback invocations in a trace. -/
def closeCbCount (events : List GEvent) : ℕ :=
  (events.filter isCloseCb).length

/-- A transport response (`Connections::Response`); the body is
carried post-parse (`Json::Value::FromEncoding` applied, `invalid` for
bodies that fail to parse), since JSON decoding is an external
collaborator.  The `\x7b499\x7d` sentinel carries an empty body, which
parses as invalid. -/
structure Response where
  status : ℕ
  body : Json

/-- A transport request (`Connections::ResourceRequest`); the only
header the controller ever sends is `User-Agent`. -/
structure ResourceRequest where
  method : String
  uri : String
  userAgent : String

/-- `Gateway::Configuration`. -/
structure Configuration where
  browser : String
  device : String
  os : String
  token : String
  userAgent : String

/-- `AwaitResourceRequest`: bail with the 499 sentinel when a
disconnect is already requested; otherwise queue the request, publish
the transaction's cancel delegate, release the lock (`mid` is what
other threads do meanwhile), re-acquire, clear the delegate, and
coerce the status to 499 when a disconnect was requested meanwhile.
`raw` is the response the transport delivers. -/
def AwaitResourceRequest (s : GatewayState) (request : ResourceRequest)
    (raw : Response) (mid : Mid) :
    GatewayState × List GEvent × Response :=
  if s.disconnect = true then (s, [], ⟨499, Json.invalid⟩)
  else
    let s1 := {s with cancelCurrentOperation := some CancelOp.transport}
    let r1 := mid s1
    let s2 := {r1.1 with cancelCurrentOperation := none}
    let events := [GEvent.queueRequest request.method request.uri request.userAgent] ++ r1.2
    if s2.disconnect = true then (s2, events, ⟨499, raw.body⟩)
    else (s2, events, raw)

/-- `AwaitWebSocketRequest`: as `AwaitResourceRequest` but for opening
a stream; the failure sentinel is "no stream" and a disconnect
observed after re-acquiring the lock discards any stream obtained.
`raw` tells whether the transport delivered a stream for `uri`. -/
def AwaitWebSocketRequest (s : GatewayState) (uri : String)
    (raw : Bool) (mid : Mid) :
    GatewayState × List GEvent × Bool :=
  if s.disconnect = true then (s, [], false)
  else
    let s1 := {s with cancelCurrentOperation := some CancelOp.transport}
    let r1 := mid s1
    let s2 := {r1.1 with cancelCurrentOperation := none}
    let events := [GEvent.queueWebSocket uri] ++ r1.2
    if s2.disconnect = true then (s2, events, false)
    else (s2, events, raw)

/-- `AwaitHelloPromise`: publish a cancel that fires the hello
promise, release the lock until the promise is set, re-acquire, clear
the cancel slot. -/
def AwaitHelloPromise (s : GatewayState) (mid : Mid) :
    GatewayState × List GEvent :=
  let s1 := {s with cancelCurrentOperation := some CancelOp.helloFire}
  let r1 := mid s1
  ({r1.1 with cancelCurrentOperation := none}, r1.2)

/-- `GetGateway`: one GET to the discovery endpoint; empty string on
non-200, otherwise the (string-coerced) `url` member of the parsed
body. -/
def GetGateway (s : GatewayState) (userAgent : String)
    (raw : Response) (mid : Mid) :
    GatewayState × List GEvent × String :=
  let r := AwaitResourceRequest s
    ⟨"GET", "https://discordapp.com/api/v6/gateway", userAgent⟩ raw mid
  if r.2.2.status ≠ 200 then (r.1, r.2.1, "")
  else (r.1, r.2.1, Json.asString (Json.index r.2.2.body "url"))

/-- The query suffix appended to the cached endpoint. -/
def webSocketEndpointSuffix : String := "/?v=6&encoding=json"

/-- The identify text frame built by `SendIdentify`. -/
def IdentifyMessage (configuration : Configuration) : Json :=
  Json.obj
    [("op", Json.num 2),
     ("d", Json.obj
       [("token", Json.str configuration.token),
        ("properties", Json.obj
          [("$os", Json.str configuration.os),
           ("$browser", Json.str configuration.browser),
           ("$device", Json.str configuration.device)])])]

/-- The transport oracle and interleavings for one run of
`CompleteConnect`: `openResult` says whether opening a given URI
yields a stream, `discoveryResponse` is the discovery GET's raw
response, and each `Mid` is what other threads do while the lock is
released at the corresponding await. -/
structure ConnectEnv where
  proceedMid : Mid
  openResult : String → Bool
  cachedMid : Mid
  discoveryResponse : Response
  discoveryMid : Mid
  freshMid : Mid
  helloMid : Mid

/-- The interleaving-free environment builder. -/
def pureEnv (openResult : String → Bool) (discoveryResponse : Response) :
    ConnectEnv where
  proceedMid := pureMid
  openResult := openResult
  cachedMid := pureMid
  discoveryResponse := discoveryResponse
  discoveryMid := pureMid
  freshMid := pureMid
  helloMid := pureMid

/-- The tail of `CompleteConnect` after the open attempts: fail
without a stream; otherwise set `awaitingHello`, reset the hello
promise, install the WebSocket callbacks, await hello (failing when a
disconnect arrived), send identify, and report the connection at
level 1. -/
def FinishConnect (s : GatewayState) (configuration : Configuration)
    (env : ConnectEnv) : GatewayState × List GEvent × Bool :=
  if s.webSocket = false then (s, [], false)
  else
    let s1 := {s with awaitingHello := true, helloSignaled := false}
    let r1 := AwaitHelloPromise s1 env.helloMid
    if r1.1.disconnect = true then (r1.1, r1.2, false)
    else
      let r2 := NotifyDiagnosticMessage r1.1 0 "Sending identify"
      let sendEvents := [GEvent.sendText (IdentifyMessage configuration)]
      let r3 := NotifyDiagnosticMessage r2.1 1 "Connected to Discord"
      (r3.1, r1.2 ++ r2.2 ++ sendEvents ++ r3.2, true)

/-- `CompleteConnect`: consume any `proceedWithConnect` gate; try the
cached endpoint when present; on failure rediscover the endpoint
(storing the result in the cache) and retry once; then proceed to the
hello/identify phase via `FinishConnect`. -/
def CompleteConnect (s : GatewayState) (configuration : Configuration)
    (env : ConnectEnv) : GatewayState × List GEvent × Bool :=
  let p :=
    if s.proceedWithConnect = true then
      env.proceedMid {s with proceedWithConnect := false}
    else (s, [])
  let c :=
    if p.1.webSocketEndpoint ≠ "" then
      let uri := p.1.webSocketEndpoint ++ webSocketEndpointSuffix
      let r := AwaitWebSocketRequest p.1 uri (env.openResult uri) env.cachedMid
      ({r.1 with webSocket := r.2.2}, p.2 ++ r.2.1)
    else (p.1, p.2)
  if c.1.webSocket = false then
    let g := GetGateway c.1 configuration.userAgent env.discoveryResponse env.discoveryMid
    let s2 := {g.1 with webSocketEndpoint := g.2.2}
    if g.2.2 = "" then (s2, c.2 ++ g.2.1, false)
    else
      let uri := g.2.2 ++ webSocketEndpointSuffix
      let r := AwaitWebSocketRequest s2 uri (env.openResult uri) env.freshMid
      let s3 := {r.1 with webSocket := r.2.2}
      let f := FinishConnect s3 configuration env
      (f.1, c.2 ++ g.2.1 ++ r.2.1 ++ f.2.1, f.2.2)
  else
    let f := FinishConnect c.1 configuration env
    (f.1, c.2 ++ f.2.1, f.2.2)

/-- Whether `Gateway::Connect` returned an already-completed `false`
future, or spawned the asynchronous connection procedure. -/
inductive ConnectOutcome where
  | immediateFalse : ConnectOutcome
  | spawned : ConnectOutcome

/-- `Connect` (the synchronous part, under lock): fail immediately
when no scheduler is set, a WebSocket is held, or a connect is already
in progress; otherwise reset the close/disconnect latches and spawn
the worker. -/
def Connect (s : GatewayState) : GatewayState × List GEvent × ConnectOutcome :=
  if s.scheduler = false ∨ s.webSocket = true ∨ s.connecting = true then
    (s, [], ConnectOutcome.immediateFalse)
  else
    ({s with closed := false, closeSignaled := false,
             connecting := true, disconnect := false},
     [], ConnectOutcome.spawned)

/-- `ConnectAsync`: run `CompleteConnect` on the worker and clear
`connecting`. -/
def ConnectAsync (s : GatewayState) (configuration : Configuration)
    (env : ConnectEnv) : GatewayState × List GEvent × Bool :=
  let r := CompleteConnect s configuration env
  ({r.1 with connecting := false}, r.2.1, r.2.2)

/-- A whole `Connect` call: the value the returned future resolves
to. -/
def ConnectRun (s : GatewayState) (configuration : Configuration)
    (env : ConnectEnv) : GatewayState × List GEvent × Bool :=
  let r := Connect s
  match r.2.2 with
  | ConnectOutcome.immediateFalse => (r.1, r.2.1, false)
  | ConnectOutcome.spawned =>
    let a := ConnectAsync r.1 configuration env
    (a.1, r.2.1 ++ a.2.1, a.2.2)

/-- `Disconnect`: latch the flag, invoke the published cancel delegate
when present (the hello cancel fires the hello promise), and when a
WebSocket is held close it with code 1000, wait (lock released, `mid`
meanwhile) up to one second for the remote close (`wasClosed` tells
whether `closePromise` fired in time), report a timeout at level 5,
unschedule everything, and drop the stream and interval. -/
def Disconnect (s : GatewayState) (wasClosed : Bool) (mid : Mid) :
    GatewayState × List GEvent :=
  let s1 := {s with disconnect := true}
  let c :=
    match s1.cancelCurrentOperation with
    | none => (s1, ([] : List GEvent))
    | some CancelOp.transport => (s1, [GEvent.cancelInvoked])
    | some CancelOp.helloFire =>
      ({s1 with helloSignaled := true}, [GEvent.cancelInvoked])
  if c.1.webSocket = false then (c.1, c.2)
  else
    let r1 := mid c.1
    let r2 :=
      if wasClosed = true then (r1.1, ([] : List GEvent))
      else NotifyDiagnosticMessage r1.1 5
        "Timeout waiting for Discord to close its end of the WebSocket"
    let r3 := UnscheduleAll r2.1
    ({r3.1 with webSocket := false, heartbeatInterval := 0},
     c.2 ++ [GEvent.wsClose 1000] ++ r1.2 ++ r2.2 ++ r3.2)

/-- The interleaving in which `Disconnect` runs (on another thread)
while the controller awaits a transport operation.  During the awaits
of `CompleteConnect` no WebSocket is held, so the remote-close wait
parameters are irrelevant. -/
def disconnectMid : Mid := fun s => Disconnect s true pureMid

/-- Whether a parsed discovery body is a JSON object containing a
string member `url` (the shape the spec demands). -/
def isGoodGatewayBody : Json → Bool
  | .obj members =>
    match members.lookup "url" with
    | some (.str _) => true
    | _ => false
  | _ => false

/-- A sample configuration for concrete instantiations. -/
def sampleConfig : Configuration :=
  ⟨"browser", "device", "os", "token", "agent"⟩

/-- A session state in which a stream is open and heartbeats run. -/
def liveState : GatewayState :=
  {initialState with
    webSocket := true, scheduler := true, onClose := true,
    onDiagnosticMessage := true, heartbeatAckReceived := true,
    heartbeatInterval := 45, heartbeatSchedulerToken := 5}

/-- `SendHeartbeat` with an open, non-closed stream sends exactly the
heartbeat frame (and nothing else text-wise). -/
theorem SendHeartbeat_filter_sendText (s : GatewayState) (now : ℚ) (tok : ℕ)
    (hws : s.webSocket = true) (hcl : s.closed = false) :
    (SendHeartbeat s now tok).2.filter isSendText
      = [GEvent.sendText (HeartbeatMessage s)] := by
  simp only [SendHeartbeat, UnscheduleHeartbeat, NotifyDiagnosticMessage,
    ScheduleHeartbeat, HeartbeatMessage]
  split_ifs <;> simp_all [isSendText]

/-- `SendHeartbeat` with an open, non-closed stream sends a text
frame. -/
theorem SendHeartbeat_any_sendText (s : GatewayState) (now : ℚ) (tok : ℕ)
    (hws : s.webSocket = true) (hcl : s.closed = false) :
    (SendHeartbeat s now tok).2.any isSendText = true := by
  simp only [SendHeartbeat, UnscheduleHeartbeat, NotifyDiagnosticMessage,
    ScheduleHeartbeat]
  split_ifs <;> simp_all [isSendText]

/-- `SendHeartbeat` never closes the stream. -/
theorem SendHeartbeat_no_wsClose (s : GatewayState) (now : ℚ) (tok : ℕ) :
    (SendHeartbeat s now tok).2.any (isWsClose 4000) = false := by
  simp only [SendHeartbeat, UnscheduleHeartbeat, NotifyDiagnosticMessage,
    ScheduleHeartbeat]
  split_ifs <;> simp_all [isWsClose]

/-- The exact result of `NotifyDiagnosticMessage`. -/
theorem NotifyDiagnosticMessage_eq (s : GatewayState) (level : ℕ) (msg : String) :
    NotifyDiagnosticMessage s level msg
      = ({s with storedDiagnosticMessages :=
            (if s.onDiagnosticMessage = true then s.storedDiagnosticMessages
             else s.storedDiagnosticMessages ++ [(level, msg)])},
         (if s.onDiagnosticMessage = true
          then [GEvent.diag level msg] else [])) := by
  cases s
  simp only [NotifyDiagnosticMessage]
  split_ifs with h <;> simp_all

set_option maxHeartbeats 1000000 in
/-- `SendHeartbeat` leaves the heartbeat interval unchanged. -/
theorem SendHeartbeat_interval (s : GatewayState) (now : ℚ) (tok : ℕ) :
    (SendHeartbeat s now tok).1.heartbeatInterval = s.heartbeatInterval := by
  simp only [SendHeartbeat, UnscheduleHeartbeat, NotifyDiagnosticMessage,
    ScheduleHeartbeat]
  split_ifs <;> simp_all

set_option maxHeartbeats 1000000 in
/-- `SendHeartbeat` leaves `receivedSequenceNumber` unchanged. -/
theorem SendHeartbeat_rsn (s : GatewayState) (now : ℚ) (tok : ℕ) :
    (SendHeartbeat s now tok).1.receivedSequenceNumber
      = s.receivedSequenceNumber := by
  simp only [SendHeartbeat, UnscheduleHeartbeat, NotifyDiagnosticMessage,
    ScheduleHeartbeat]
  split_ifs <;> simp_all

set_option maxHeartbeats 1000000 in
/-- `SendHeartbeat` leaves `lastSequenceNumber` unchanged. -/
theorem SendHeartbeat_lsn (s : GatewayState) (now : ℚ) (tok : ℕ) :
    (SendHeartbeat s now tok).1.lastSequenceNumber
      = s.lastSequenceNumber := by
  simp only [SendHeartbeat, UnscheduleHeartbeat, NotifyDiagnosticMessage,
    ScheduleHeartbeat]
  split_ifs <;> simp_all

set_option maxHeartbeats 1000000 in
/-- `SendHeartbeat` sends nothing when there is no stream or the
session is closed. -/
theorem SendHeartbeat_inert (s : GatewayState) (now : ℚ) (tok : ℕ)
    (h : s.webSocket = false ∨ s.closed = true) :
    (SendHeartbeat s now tok).2.filter isSendText = [] := by
  simp only [SendHeartbeat, UnscheduleHeartbeat, NotifyDiagnosticMessage,
    ScheduleHeartbeat]
  rcases h with h | h <;> split_ifs <;> simp_all [isSendText]

/-- Every text frame `SendHeartbeat` emits is the heartbeat frame. -/
theorem SendHeartbeat_filter_cases (s : GatewayState) (now : ℚ) (tok : ℕ) :
    (SendHeartbeat s now tok).2.filter isSendText = []
    ∨ (SendHeartbeat s now tok).2.filter isSendText
        = [GEvent.sendText (HeartbeatMessage s)] := by
  by_cases hws : s.webSocket = true
  · by_cases hcl : s.closed = false
    · exact Or.inr (SendHeartbeat_filter_sendText s now tok hws hcl)
    · exact Or.inl (SendHeartbeat_inert s now tok
        (Or.inr (by simpa using hcl)))
  · exact Or.inl (SendHeartbeat_inert s now tok
      (Or.inl (by simpa using hws)))

/-- `OnClose` sends no text frame. -/
theorem OnClose_any_sendText (s : GatewayState) :
    (OnClose s).2.any isSendText = false := by
  simp only [OnClose, NotifyDiagnosticMessage, NotifyClose]
  split_ifs <;> simp_all [isSendText]

/-- `OnClose` from a non-closed state marks the session closed and
fires the close promise. -/
theorem OnClose_state (s : GatewayState) (h : s.closed = false) :
    (OnClose s).1.closed = true ∧ (OnClose s).1.closeSignaled = true := by
  simp only [OnClose, NotifyDiagnosticMessage, NotifyClose, h]
  split_ifs <;> simp_all

/-- The exact result of `OnClose` on a non-closed state. -/
theorem OnClose_eq (s : GatewayState) (h : s.closed = false) :
    OnClose s =
      ({s with closed := true, closeSignaled := true,
               storedDiagnosticMessages :=
                 (if s.onDiagnosticMessage = true then s.storedDiagnosticMessages
                  else s.storedDiagnosticMessages
                    ++ [(1, "Disconnected from Discord")])},
       (if s.onDiagnosticMessage = true
        then [GEvent.diag 1 "Disconnected from Discord"] else [])
       ++ (if s.onClose = true then [GEvent.closeCbInvoked] else [])) := by
  simp only [OnClose, NotifyDiagnosticMessage, NotifyClose, h]
  split_ifs <;> simp_all

/-- `OnClose` on an already-closed state does nothing. -/
theorem OnClose_closed (s : GatewayState) (h : s.closed = true) :
    OnClose s = (s, []) := by
  simp [OnClose, h]

/-- A discovery body that is not an object with a string `url` member
string-coerces to the empty URL. -/
theorem badBody_url_empty (b : Json) (h : isGoodGatewayBody b = false) :
    Json.asString (Json.index b "url") = "" := by
  cases b <;> simp_all [isGoodGatewayBody, Json.index, Json.asString]
  case obj members =>
    cases hm : members.lookup "url" <;> simp_all [Json.asString]
    case some v => cases v <;> simp_all [Json.asString]

/-- `AwaitResourceRequest` with no concurrent activity just queues the
request and returns the transport's response. -/
theorem AwaitResourceRequest_pure (s : GatewayState)
    (request : ResourceRequest) (raw : Response) (hd : s.disconnect = false) :
    AwaitResourceRequest s request raw pureMid
      = ({s with cancelCurrentOperation := none},
         [GEvent.queueRequest request.method request.uri request.userAgent],
         raw) := by
  cases s
  simp_all [AwaitResourceRequest, pureMid]

/-- `AwaitWebSocketRequest` with no concurrent activity just queues
the open and returns the transport's result. -/
theorem AwaitWebSocketRequest_pure (s : GatewayState) (uri : String)
    (raw : Bool) (hd : s.disconnect = false) :
    AwaitWebSocketRequest s uri raw pureMid
      = ({s with cancelCurrentOperation := none},
         [GEvent.queueWebSocket uri], raw) := by
  cases s
  simp_all [AwaitWebSocketRequest, pureMid]

/-- `GetGateway` with no concurrent activity: one GET, and the URL is
empty iff the response was bad. -/
theorem GetGateway_pure (s : GatewayState) (userAgent : String)
    (raw : Response) (hd : s.disconnect = false) :
    GetGateway s userAgent raw pureMid
      = ({s with cancelCurrentOperation := none},
         [GEvent.queueRequest "GET" "https://discordapp.com/api/v6/gateway"
            userAgent],
         if raw.status ≠ 200 then ""
         else Json.asString (Json.index raw.body "url")) := by
  simp only [GetGateway, AwaitResourceRequest_pure s _ raw hd]
  split_ifs <;> simp_all

/-- Projection facts for the quiet environment. -/
theorem pureEnv_proceedMid (openResult : String → Bool) (r : Response) :
    (pureEnv openResult r).proceedMid = pureMid := rfl

theorem pureEnv_cachedMid (openResult : String → Bool) (r : Response) :
    (pureEnv openResult r).cachedMid = pureMid := rfl

theorem pureEnv_discoveryMid (openResult : String → Bool) (r : Response) :
    (pureEnv openResult r).discoveryMid = pureMid := rfl

theorem pureEnv_freshMid (openResult : String → Bool) (r : Response) :
    (pureEnv openResult r).freshMid = pureMid := rfl

theorem pureEnv_helloMid (openResult : String → Bool) (r : Response) :
    (pureEnv openResult r).helloMid = pureMid := rfl

theorem pureEnv_openResult (openResult : String → Bool) (r : Response) :
    (pureEnv openResult r).openResult = openResult := rfl

theorem pureEnv_discoveryResponse (openResult : String → Bool) (r : Response) :
    (pureEnv openResult r).discoveryResponse = r := rfl

/-- `FinishConnect` under a quiet hello wait succeeds exactly when a
stream is held. -/
theorem FinishConnect_result (s : GatewayState)
    (configuration : Configuration) (env : ConnectEnv)
    (henv : env.helloMid = pureMid) (hd : s.disconnect = false) :
    (FinishConnect s configuration env).2.2 = s.webSocket := by
  by_cases hw : s.webSocket = false
  · simp [FinishConnect, hw]
  · simp only [Bool.not_eq_false] at hw
    simp [FinishConnect, AwaitHelloPromise, henv, pureMid, hw, hd,
      NotifyDiagnosticMessage_eq]

/-- `FinishConnect` under a quiet hello wait never changes which
stream is held. -/
theorem FinishConnect_webSocket (s : GatewayState)
    (configuration : Configuration) (env : ConnectEnv)
    (henv : env.helloMid = pureMid) (hd : s.disconnect = false) :
    (FinishConnect s configuration env).1.webSocket = s.webSocket := by
  by_cases hw : s.webSocket = false
  · simp [FinishConnect, hw]
  · simp only [Bool.not_eq_false] at hw
    simp [FinishConnect, AwaitHelloPromise, henv, pureMid, hw, hd,
      NotifyDiagnosticMessage_eq]

/-- `FinishConnect` under a quiet hello wait never touches the
endpoint cache. -/
theorem FinishConnect_endpoint (s : GatewayState)
    (configuration : Configuration) (env : ConnectEnv)
    (henv : env.helloMid = pureMid) (hd : s.disconnect = false) :
    (FinishConnect s configuration env).1.webSocketEndpoint
      = s.webSocketEndpoint := by
  by_cases hw : s.webSocket = false
  · simp [FinishConnect, hw]
  · simp only [Bool.not_eq_false] at hw
    simp [FinishConnect, AwaitHelloPromise, henv, pureMid, hw, hd,
      NotifyDiagnosticMessage_eq]

/-- `Disconnect` racing a transport await (its cancel delegate
published, no stream held yet) latches the flag and invokes the
delegate. -/
theorem disconnectMid_transport (s : GatewayState)
    (hw : s.webSocket = false)
    (hc : s.cancelCurrentOperation = some CancelOp.transport) :
    disconnectMid s = ({s with disconnect := true}, [GEvent.cancelInvoked]) := by
  cases s
  simp_all [disconnectMid, Disconnect]

/-- A `Disconnect` arriving while a resource request is in flight
invokes the cancel delegate and coerces the response status to
499. -/
theorem AwaitResourceRequest_disconnected (s : GatewayState)
    (request : ResourceRequest) (raw : Response)
    (hd : s.disconnect = false) (hw : s.webSocket = false) :
    AwaitResourceRequest s request raw disconnectMid
      = ({s with disconnect := true, cancelCurrentOperation := none},
         [GEvent.queueRequest request.method request.uri request.userAgent,
          GEvent.cancelInvoked],
         ⟨499, raw.body⟩) := by
  have hmid := disconnectMid_transport
    {s with cancelCurrentOperation := some CancelOp.transport}
    (by simpa using hw) rfl
  cases s
  simp_all [AwaitResourceRequest]

/-- A `Disconnect` arriving while a stream open is in flight invokes
the cancel delegate and coerces the result to "no stream". -/
theorem AwaitWebSocketRequest_disconnected (s : GatewayState)
    (uri : String) (raw : Bool)
    (hd : s.disconnect = false) (hw : s.webSocket = false) :
    AwaitWebSocketRequest s uri raw disconnectMid
      = ({s with disconnect := true, cancelCurrentOperation := none},
         [GEvent.queueWebSocket uri, GEvent.cancelInvoked],
         false) := by
  have hmid := disconnectMid_transport
    {s with cancelCurrentOperation := some CancelOp.transport}
    (by simpa using hw) rfl
  cases s
  simp_all [AwaitWebSocketRequest]

/-- `AwaitResourceRequest` entered with the disconnect flag already
latched returns the 499 sentinel without queueing anything. -/
theorem AwaitResourceRequest_latched (s : GatewayState)
    (request : ResourceRequest) (raw : Response) (mid : Mid)
    (hd : s.disconnect = true) :
    AwaitResourceRequest s request raw mid
      = (s, [], ⟨499, Json.invalid⟩) := by
  simp [AwaitResourceRequest, hd]

/-- A pending `proceedWithConnect` gate with no one holding it back
is consumed without effect. -/
theorem CompleteConnect_proceed_elim (s : GatewayState)
    (configuration : Configuration) (env : ConnectEnv)
    (henv : env.proceedMid = pureMid) :
    CompleteConnect s configuration env
      = CompleteConnect {s with proceedWithConnect := false}
          configuration env := by
  by_cases h : s.proceedWithConnect = true
  · simp only [CompleteConnect, henv, pureMid, h]
    simp
  · have hs : {s with proceedWithConnect := false} = s := by
      cases s
      simp_all
    rw [hs]

/-- The endpoint cache after a quiet `CompleteConnect` run: kept on a
successful cached open, otherwise replaced by the discovery result
(empty on discovery failure); the run succeeds exactly when it ends
holding a stream. -/
theorem CompleteConnect_cache_facts (s : GatewayState)
    (configuration : Configuration) (openResult : String → Bool)
    (discoveryResponse : Response)
    (hd : s.disconnect = false) (hw : s.webSocket = false)
    (hpc : s.proceedWithConnect = false) :
    (s.webSocketEndpoint ≠ "" →
      openResult (s.webSocketEndpoint ++ webSocketEndpointSuffix) = true →
      (CompleteConnect s configuration
          (pureEnv openResult discoveryResponse)).1.webSocketEndpoint
        = s.webSocketEndpoint
      ∧ (CompleteConnect s configuration
          (pureEnv openResult discoveryResponse)).1.webSocket = true
      ∧ (CompleteConnect s configuration
          (pureEnv openResult discoveryResponse)).2.2 = true)
    ∧ ((s.webSocketEndpoint = ""
        ∨ openResult (s.webSocketEndpoint ++ webSocketEndpointSuffix) = false) →
      (CompleteConnect s configuration
          (pureEnv openResult discoveryResponse)).1.webSocketEndpoint
        = (if discoveryResponse.status ≠ 200 then ""
           else Json.asString (Json.index discoveryResponse.body "url"))
      ∧ ((CompleteConnect s configuration
            (pureEnv openResult discoveryResponse)).1.webSocketEndpoint = "" →
          (CompleteConnect s configuration
              (pureEnv openResult discoveryResponse)).2.2 = false
          ∧ (CompleteConnect s configuration
              (pureEnv openResult discoveryResponse)).1.webSocket = false)
      ∧ ((CompleteConnect s configuration
            (pureEnv openResult discoveryResponse)).1.webSocketEndpoint ≠ "" →
          (CompleteConnect s configuration
              (pureEnv openResult discoveryResponse)).1.webSocket
            = openResult ((CompleteConnect s configuration
                (pureEnv openResult discoveryResponse)).1.webSocketEndpoint
                ++ webSocketEndpointSuffix)
          ∧ (CompleteConnect s configuration
              (pureEnv openResult discoveryResponse)).2.2
            = (CompleteConnect s configuration
                (pureEnv openResult discoveryResponse)).1.webSocket)) := by
  refine ⟨fun hne hopen => ?_, fun hfall => ?_⟩
  · simp [CompleteConnect, pureEnv_proceedMid, pureEnv_cachedMid,
          pureEnv_discoveryMid, pureEnv_freshMid, pureEnv_helloMid,
          pureEnv_openResult, pureEnv_discoveryResponse, pureMid, hpc, hne, hopen, hd,
      AwaitWebSocketRequest_pure, FinishConnect_result,
      FinishConnect_webSocket, FinishConnect_endpoint]
  · have hopenf : s.webSocketEndpoint ≠ "" →
        openResult (s.webSocketEndpoint ++ webSocketEndpointSuffix) = false := by
      intro hne
      rcases hfall with h | h
      · exact absurd h hne
      · exact h
    by_cases hne : s.webSocketEndpoint = "" <;>
      by_cases hstat : discoveryResponse.status = 200
    · by_cases hurl : Json.asString (Json.index discoveryResponse.body "url") = ""
      · simp [CompleteConnect, pureEnv_proceedMid, pureEnv_cachedMid,
          pureEnv_discoveryMid, pureEnv_freshMid, pureEnv_helloMid,
          pureEnv_openResult, pureEnv_discoveryResponse, pureMid, hpc, hne,
          hd, hw, GetGateway_pure, hstat, hurl]
      · simp [CompleteConnect, pureEnv_proceedMid, pureEnv_cachedMid,
          pureEnv_discoveryMid, pureEnv_freshMid, pureEnv_helloMid,
          pureEnv_openResult, pureEnv_discoveryResponse, pureMid, hpc, hne,
          hd, hw, GetGateway_pure, hstat, hurl, AwaitWebSocketRequest_pure,
          FinishConnect_result, FinishConnect_webSocket,
          FinishConnect_endpoint]
    · simp [CompleteConnect, pureEnv_proceedMid, pureEnv_cachedMid,
        pureEnv_discoveryMid, pureEnv_freshMid, pureEnv_helloMid,
        pureEnv_openResult, pureEnv_discoveryResponse, pureMid, hpc, hne,
        hd, hw, GetGateway_pure, hstat]
    · by_cases hurl : Json.asString (Json.index discoveryResponse.body "url") = ""
      · simp [CompleteConnect, pureEnv_proceedMid, pureEnv_cachedMid,
          pureEnv_discoveryMid, pureEnv_freshMid, pureEnv_helloMid,
          pureEnv_openResult, pureEnv_discoveryResponse, pureMid, hpc, hne,
          hopenf hne, hd, hw, GetGateway_pure, hstat, hurl,
          AwaitWebSocketRequest_pure]
      · simp [CompleteConnect, pureEnv_proceedMid, pureEnv_cachedMid,
          pureEnv_discoveryMid, pureEnv_freshMid, pureEnv_helloMid,
          pureEnv_openResult, pureEnv_discoveryResponse, pureMid, hpc, hne,
          hopenf hne, hd, hw, GetGateway_pure, hstat, hurl,
          AwaitWebSocketRequest_pure, FinishConnect_result,
          FinishConnect_webSocket, FinishConnect_endpoint]
    · simp [CompleteConnect, pureEnv_proceedMid, pureEnv_cachedMid,
        pureEnv_discoveryMid, pureEnv_freshMid, pureEnv_helloMid,
        pureEnv_openResult, pureEnv_discoveryResponse, pureMid, hpc, hne,
        hopenf hne, hd, hw, GetGateway_pure, hstat,
        AwaitWebSocketRequest_pure]

/-- `CompleteConnect_cache_facts` holds for any pending state of the
test-only connect gate. -/
theorem CompleteConnect_facts (s : GatewayState)
    (configuration : Configuration) (openResult : String → Bool)
    (discoveryResponse : Response)
    (hd : s.disconnect = false) (hw : s.webSocket = false) :
    (s.webSocketEndpoint ≠ "" →
      openResult (s.webSocketEndpoint ++ webSocketEndpointSuffix) = true →
      (CompleteConnect s configuration
          (pureEnv openResult discoveryResponse)).1.webSocketEndpoint
        = s.webSocketEndpoint
      ∧ (CompleteConnect s configuration
          (pureEnv openResult discoveryResponse)).1.webSocket = true
      ∧ (CompleteConnect s configuration
          (pureEnv openResult discoveryResponse)).2.2 = true)
    ∧ ((s.webSocketEndpoint = ""
        ∨ openResult (s.webSocketEndpoint ++ webSocketEndpointSuffix) = false) →
      (CompleteConnect s configuration
          (pureEnv openResult discoveryResponse)).1.webSocketEndpoint
        = (if discoveryResponse.status ≠ 200 then ""
           else Json.asString (Json.index discoveryResponse.body "url"))
      ∧ ((CompleteConnect s configuration
            (pureEnv openResult discoveryResponse)).1.webSocketEndpoint = "" →
          (CompleteConnect s configuration
              (pureEnv openResult discoveryResponse)).2.2 = false
          ∧ (CompleteConnect s configuration
              (pureEnv openResult discoveryResponse)).1.webSocket = false)
      ∧ ((CompleteConnect s configuration
            (pureEnv openResult discoveryResponse)).1.webSocketEndpoint ≠ "" →
          (CompleteConnect s configuration
              (pureEnv openResult discoveryResponse)).1.webSocket
            = openResult ((CompleteConnect s configuration
                (pureEnv openResult discoveryResponse)).1.webSocketEndpoint
                ++ webSocketEndpointSuffix)
          ∧ (CompleteConnect s configuration
              (pureEnv openResult discoveryResponse)).2.2
            = (CompleteConnect s configuration
                (pureEnv openResult discoveryResponse)).1.webSocket)) := by
  by_cases pc : s.proceedWithConnect = false
  · exact CompleteConnect_cache_facts s configuration openResult
      discoveryResponse hd hw pc
  · rw [CompleteConnect_proceed_elim s configuration
      (pureEnv openResult discoveryResponse) rfl]
    have hres := CompleteConnect_cache_facts
      {s with proceedWithConnect := false} configuration openResult
      discoveryResponse hd hw rfl
    simpa using hres

/-- C1: on each expiry of the scheduled heartbeat tick while a stream
is open and the session is not closed, a heartbeat is sent iff the
previous heartbeat's ack was received; when the ack is still pending,
the stream is closed with code 4000 and the session enters Closed via
the close funnel. -/
theorem claim_c1 (s : GatewayState) (now : ℚ) (tok : ℕ)
    (hws : s.webSocket = true) (hcl : s.closed = false) :
    ((OnHeartbeatDue s now tok).2.any isSendText = s.heartbeatAckReceived)
    ∧ (s.heartbeatAckReceived = false →
        (OnHeartbeatDue s now tok).2.any (isWsClose 4000) = true
        ∧ (OnHeartbeatDue s now tok).1.closed = true
        ∧ (OnHeartbeatDue s now tok).1.closeSignaled = true) := by
  by_cases hack : s.heartbeatAckReceived = true
  · have hdue : OnHeartbeatDue s now tok
        = SendHeartbeat {s with heartbeatSchedulerToken := 0} now tok := by
      simp only [OnHeartbeatDue]
      rw [if_neg]
      simp [hack]
    refine ⟨?_, by simp [hack]⟩
    rw [hdue, hack]
    exact SendHeartbeat_any_sendText _ now tok (by simpa using hws)
      (by simpa using hcl)
  · simp only [Bool.not_eq_true] at hack
    have hdue : OnHeartbeatDue s now tok
        = ((OnClose {s with heartbeatSchedulerToken := 0}).1,
           [GEvent.wsClose 4000]
             ++ (OnClose {s with heartbeatSchedulerToken := 0}).2) := by
      simp only [OnHeartbeatDue]
      rw [if_pos]
      simp [hack, hws, hcl]
    have hcl' : (OnClose {s with heartbeatSchedulerToken := 0}).1.closed = true
        ∧ (OnClose {s with heartbeatSchedulerToken := 0}).1.closeSignaled = true :=
      OnClose_state _ (by simpa using hcl)
    refine ⟨?_, fun _ => ⟨?_, ?_, ?_⟩⟩
    · rw [hdue, hack]
      simp [OnClose_any_sendText, isSendText]
    · rw [hdue]
      simp [isWsClose]
    · rw [hdue]
      exact hcl'.1
    · rw [hdue]
      exact hcl'.2

/-- C1 witness at a concrete live state. -/
theorem claim_c1_witness :
    ((OnHeartbeatDue liveState 0 7).2.any isSendText = liveState.heartbeatAckReceived)
    ∧ (liveState.heartbeatAckReceived = false →
        (OnHeartbeatDue liveState 0 7).2.any (isWsClose 4000) = true
        ∧ (OnHeartbeatDue liveState 0 7).1.closed = true
        ∧ (OnHeartbeatDue liveState 0 7).1.closeSignaled = true) :=
  claim_c1 liveState 0 7 rfl rfl

/-- A live state whose scheduled-heartbeat token is outstanding and
whose close callback and diagnostic sink are registered. -/
def c4State : GatewayState :=
  {initialState with
    webSocket := true, scheduler := true, heartbeatSchedulerToken := 5,
    onClose := true, onDiagnosticMessage := true}

/-- C4 counterexample: entering Closed through `OnClose` does not
cancel the scheduled heartbeat; the token is untouched (still 5, not
none) and no scheduler cancellation is issued. -/
theorem claim_c4_counterexample :
    c4State.closed = false
    ∧ c4State.heartbeatSchedulerToken = 5
    ∧ (OnClose c4State).1.closed = true
    ∧ (OnClose c4State).1.heartbeatSchedulerToken = 5
    ∧ (OnClose c4State).2.any isCancelSchedule = false :=
  ⟨rfl, rfl, rfl, rfl, rfl⟩

/-- C4 (amended): every transition into Closed through `OnClose` from
a non-Closed state sets `closed`, fires the close signal, emits the
level-1 diagnostic (to the sink when one is registered), and invokes
the close callback outside the lock; it does not cancel a scheduled
heartbeat: the token is left unchanged and no scheduler cancellation
happens. -/
theorem claim_c4 (s : GatewayState) (h : s.closed = false) :
    (OnClose s).1.closed = true
    ∧ (OnClose s).1.closeSignaled = true
    ∧ (s.onDiagnosticMessage = true →
        GEvent.diag 1 "Disconnected from Discord" ∈ (OnClose s).2)
    ∧ (s.onClose = true → GEvent.closeCbInvoked ∈ (OnClose s).2)
    ∧ (OnClose s).1.heartbeatSchedulerToken = s.heartbeatSchedulerToken
    ∧ (OnClose s).2.any isCancelSchedule = false := by
  rw [OnClose_eq s h]
  refine ⟨rfl, rfl, fun hd => ?_, fun hc => ?_, rfl, ?_⟩
  · simp [hd]
  · simp [hc]
  · split_ifs <;> simp [isCancelSchedule]

/-- C4 witness at a concrete live state. -/
theorem claim_c4_witness :
    (OnClose c4State).1.closed = true
    ∧ (OnClose c4State).1.closeSignaled = true
    ∧ (c4State.onDiagnosticMessage = true →
        GEvent.diag 1 "Disconnected from Discord" ∈ (OnClose c4State).2)
    ∧ (c4State.onClose = true → GEvent.closeCbInvoked ∈ (OnClose c4State).2)
    ∧ (OnClose c4State).1.heartbeatSchedulerToken = c4State.heartbeatSchedulerToken
    ∧ (OnClose c4State).2.any isCancelSchedule = false :=
  claim_c4 c4State rfl

/-- C5: one close-callback invocation per transition into Closed from
a non-Closed state — at close time when the callback was registered
before the transition, at registration time when it is registered
after; re-entering the close funnel while already Closed invokes
nothing. -/
theorem claim_c5 (s : GatewayState) (h : s.closed = false) :
    (s.onClose = true →
      closeCbCount (OnClose s).2 = 1
      ∧ closeCbCount (OnClose (OnClose s).1).2 = 0)
    ∧ (s.onClose = false →
      closeCbCount (OnClose s).2 = 0
      ∧ closeCbCount (RegisterCloseCallback (OnClose s).1).2 = 1)
    ∧ (OnClose s).1.closed = true := by
  rw [OnClose_eq s h]
  refine ⟨fun hc => ⟨?_, ?_⟩, fun hc => ⟨?_, ?_⟩, rfl⟩
  · split_ifs <;> simp_all [closeCbCount, isCloseCb]
  · rw [OnClose_closed _ rfl]
    simp [closeCbCount]
  · split_ifs <;> simp_all [closeCbCount, isCloseCb]
  · simp only [RegisterCloseCallback, NotifyClose]
    split_ifs <;> simp_all [closeCbCount, isCloseCb]

/-- C5 witness: close with a callback registered beforehand, at a
concrete live state. -/
theorem claim_c5_witness :
    (liveState.onClose = true →
      closeCbCount (OnClose liveState).2 = 1
      ∧ closeCbCount (OnClose (OnClose liveState).1).2 = 0)
    ∧ (liveState.onClose = false →
      closeCbCount (OnClose liveState).2 = 0
      ∧ closeCbCount (RegisterCloseCallback (OnClose liveState).1).2 = 1)
    ∧ (OnClose liveState).1.closed = true :=
  claim_c5 liveState rfl

/-- Unfolding `OnHello` when a hello is awaited. -/
theorem OnHello_eq (s : GatewayState) (message : Json) (now : ℚ) (tok : ℕ)
    (hah : s.awaitingHello = true) :
    OnHello s message now tok =
      (let interval := Json.asRat
         (Json.index (Json.index message "d") "heartbeat_interval") / 1000
       let s1 := {s with awaitingHello := false, heartbeatInterval := interval}
       let r1 := NotifyDiagnosticMessage s1 1 (HeartbeatIntervalMessage interval)
       let r2 := SendHeartbeat r1.1 now tok
       ({r2.1 with helloSignaled := true}, r1.2 ++ r2.2)) := by
  simp only [OnHello]
  rw [if_neg]
  simp [hah]

/-- C7: a Hello received while awaiting hello sets
`heartbeatInterval` to the server-supplied milliseconds divided by
1000 and immediately sends a heartbeat: the only text frame the hello
handler emits is the heartbeat frame, and on a fresh session with no
sequence number received it is exactly the object
`op: 1, d: null`. -/
theorem claim_c7 (s : GatewayState) (message : Json) (now : ℚ) (tok : ℕ)
    (hah : s.awaitingHello = true) (hws : s.webSocket = true)
    (hcl : s.closed = false) :
    (OnHello s message now tok).1.heartbeatInterval
      = Json.asRat (Json.index (Json.index message "d") "heartbeat_interval") / 1000
    ∧ (OnHello s message now tok).2.filter isSendText
      = [GEvent.sendText (HeartbeatMessage s)]
    ∧ (s.receivedSequenceNumber = false →
        (OnHello s message now tok).2.filter isSendText
          = [GEvent.sendText (Json.obj [("op", Json.num 1), ("d", Json.null)])]) := by
  rw [OnHello_eq s message now tok hah]
  simp only [NotifyDiagnosticMessage_eq]
  have hsend := SendHeartbeat_filter_sendText
    {s with awaitingHello := false,
            heartbeatInterval := Json.asRat
              (Json.index (Json.index message "d") "heartbeat_interval") / 1000,
            storedDiagnosticMessages :=
              (if s.onDiagnosticMessage = true then s.storedDiagnosticMessages
               else s.storedDiagnosticMessages
                 ++ [(1, HeartbeatIntervalMessage (Json.asRat
                       (Json.index (Json.index message "d") "heartbeat_interval")
                       / 1000))])}
    now tok (by simpa using hws) (by simpa using hcl)
  refine ⟨?_, ?_, fun hrs => ?_⟩
  · simp [SendHeartbeat_interval]
  · rw [List.filter_append, hsend]
    split_ifs <;> simp [isSendText, HeartbeatMessage]
  · rw [List.filter_append, hsend]
    split_ifs <;> simp [isSendText, HeartbeatMessage, hrs]

/-- C7 witness: a concrete awaiting-hello session receiving a Hello
with a 45000 ms interval. -/
def helloState : GatewayState :=
  {initialState with webSocket := true, scheduler := true,
                     awaitingHello := true, onDiagnosticMessage := true}

/-- The concrete Hello message of scenario S1. -/
def helloMessage : Json :=
  Json.obj [("op", Json.num 10),
            ("d", Json.obj [("heartbeat_interval", Json.num 45000)])]

theorem claim_c7_witness :
    (OnHello helloState helloMessage 0 7).1.heartbeatInterval
      = Json.asRat (Json.index (Json.index helloMessage "d") "heartbeat_interval") / 1000
    ∧ (OnHello helloState helloMessage 0 7).2.filter isSendText
      = [GEvent.sendText (HeartbeatMessage helloState)]
    ∧ (helloState.receivedSequenceNumber = false →
        (OnHello helloState helloMessage 0 7).2.filter isSendText
          = [GEvent.sendText (Json.obj [("op", Json.num 1), ("d", Json.null)])]) :=
  claim_c7 helloState helloMessage 0 7 rfl rfl rfl

/-- A live session state used for the sequence-number
counterexample. -/
def c3State : GatewayState :=
  {initialState with webSocket := true, scheduler := true,
                     onDiagnosticMessage := true}

/-- An event message carrying a sequence field `s`. -/
def c3Message : Json :=
  Json.obj [("op", Json.num 0), ("s", Json.num 42)]

/-- C3 counterexample: delivering an event message with `s = 42`
leaves `lastSequenceNumber` and `receivedSequenceNumber` untouched,
and the next heartbeat still carries `d = null`, not 42. -/
theorem claim_c3_counterexample :
    ((OnText c3State "\x7b\"op\":0,\"s\":42\x7d" c3Message 0 7).1.lastSequenceNumber
        = 42 → False)
    ∧ (OnText c3State "\x7b\"op\":0,\"s\":42\x7d" c3Message 0 7).1.receivedSequenceNumber
        = false
    ∧ (SendHeartbeat
        (OnText c3State "\x7b\"op\":0,\"s\":42\x7d" c3Message 0 7).1 0 7).2.filter
          isSendText
      = [GEvent.sendText (Json.obj [("op", Json.num 1), ("d", Json.null)])] := by
  refine ⟨fun h => ?_, rfl, rfl⟩
  simp [OnText, OnHeartbeat, OnHello, OnHeartbeatAck, NotifyDiagnosticMessage,
    c3State, c3Message, initialState, Json.index, Json.asInt] at h

/-- C3 (amended): the dispatcher never updates the sequence cursor —
`OnText` leaves `lastSequenceNumber` and `receivedSequenceNumber`
unchanged for every inbound message — and since both retain their
construction-time values, every heartbeat's `d` payload is JSON
null whenever no sequence number has been recorded, which is
always. -/
theorem claim_c3 (s : GatewayState) (raw : String) (message : Json)
    (now : ℚ) (tok : ℕ) :
    (OnText s raw message now tok).1.receivedSequenceNumber
      = s.receivedSequenceNumber
    ∧ (OnText s raw message now tok).1.lastSequenceNumber
      = s.lastSequenceNumber
    ∧ initialState.receivedSequenceNumber = false
    ∧ (s.receivedSequenceNumber = false →
        (SendHeartbeat s now tok).2.filter isSendText = []
        ∨ (SendHeartbeat s now tok).2.filter isSendText
            = [GEvent.sendText (Json.obj [("op", Json.num 1), ("d", Json.null)])]) := by
  refine ⟨?_, ?_, rfl, fun hrs => ?_⟩
  · cases message <;>
      simp only [OnText, OnHeartbeat, OnHello, OnHeartbeatAck,
        NotifyDiagnosticMessage_eq] <;>
      split_ifs <;>
      simp_all [SendHeartbeat_rsn]
  · cases message <;>
      simp only [OnText, OnHeartbeat, OnHello, OnHeartbeatAck,
        NotifyDiagnosticMessage_eq] <;>
      split_ifs <;>
      simp_all [SendHeartbeat_lsn]
  · rcases SendHeartbeat_filter_cases s now tok with h | h
    · exact Or.inl h
    · refine Or.inr ?_
      rw [h]
      simp [HeartbeatMessage, hrs]

/-- C3 witness for the amended claim, at the counterexample state and
message. -/
theorem claim_c3_witness :
    (OnText c3State "" c3Message 0 7).1.receivedSequenceNumber
      = c3State.receivedSequenceNumber
    ∧ (OnText c3State "" c3Message 0 7).1.lastSequenceNumber
      = c3State.lastSequenceNumber
    ∧ initialState.receivedSequenceNumber = false
    ∧ (c3State.receivedSequenceNumber = false →
        (SendHeartbeat c3State 0 7).2.filter isSendText = []
        ∨ (SendHeartbeat c3State 0 7).2.filter isSendText
            = [GEvent.sendText (Json.obj [("op", Json.num 1), ("d", Json.null)])]) :=
  claim_c3 c3State "" c3Message 0 7

/-- C9: with no scheduler set, `Connect` fails immediately: the
returned future is already completed with `false`, no transport
operation is queued, and the state is unchanged. -/
theorem claim_c9 (s : GatewayState) (configuration : Configuration)
    (env : ConnectEnv) (h : s.scheduler = false) :
    Connect s = (s, [], ConnectOutcome.immediateFalse)
    ∧ ConnectRun s configuration env = (s, [], false) := by
  have h1 : Connect s = (s, [], ConnectOutcome.immediateFalse) := by
    simp [Connect, h]
  exact ⟨h1, by simp [ConnectRun, h1]⟩

/-- C9 witness: a freshly constructed controller. -/
theorem claim_c9_witness :
    Connect initialState = (initialState, [], ConnectOutcome.immediateFalse)
    ∧ ConnectRun initialState sampleConfig
        (pureEnv (fun _ => true) ⟨200, Json.null⟩)
      = (initialState, [], false) :=
  claim_c9 initialState sampleConfig (pureEnv (fun _ => true) ⟨200, Json.null⟩) rfl

/-- C10: whenever no stream is held or the session is closed, the
heartbeat machinery is inert: `SendHeartbeat` sends no text frame and
schedules no tick, and `ScheduleHeartbeat` does nothing at all. -/
theorem claim_c10 (s : GatewayState) (now : ℚ) (tok : ℕ)
    (h : s.webSocket = false ∨ s.closed = true) :
    (SendHeartbeat s now tok).2.any isSendText = false
    ∧ (SendHeartbeat s now tok).2.any isSchedule = false
    ∧ ScheduleHeartbeat s tok = (s, []) := by
  simp only [SendHeartbeat, UnscheduleHeartbeat, ScheduleHeartbeat]
  rcases h with h | h <;> split_ifs <;> simp_all [isSendText, isSchedule]

/-- The transport behavior of the C2 counterexample: discovery
succeeds, but every stream open fails. -/
def c2Open : String → Bool := fun _ => false

/-- A successful discovery response whose URL is `wss://x`. -/
def c2Response : Response :=
  ⟨200, Json.obj [("url", Json.str "wss://x")]⟩

/-- C2 counterexample: starting from a freshly constructed controller
(no successful open has ever occurred), one `CompleteConnect` run in
which discovery succeeds but the stream open fails leaves the endpoint
cache non-empty (`wss://x`) while the connect fails and no stream is
held — the cache is populated by successful discovery, not by
successful open. -/
theorem claim_c2_counterexample :
    (CompleteConnect initialState sampleConfig
        (pureEnv c2Open c2Response)).2.2 = false
    ∧ (CompleteConnect initialState sampleConfig
        (pureEnv c2Open c2Response)).1.webSocket = false
    ∧ (CompleteConnect initialState sampleConfig
        (pureEnv c2Open c2Response)).1.webSocketEndpoint = "wss://x" :=
  ⟨rfl, rfl, rfl⟩

/-- C2 (amended): the endpoint cache is kept when the cached URL opens
successfully, and otherwise holds exactly the result of the endpoint
rediscovery — the discovered URL (without the query suffix) when
discovery succeeds, the empty string when it fails; it is therefore
populated upon successful discovery, before (and regardless of) the
following open attempt, and a quiet connect run succeeds exactly when
it ends holding a stream. -/
theorem claim_c2 (s : GatewayState) (configuration : Configuration)
    (openResult : String → Bool) (discoveryResponse : Response)
    (hd : s.disconnect = false) (hw : s.webSocket = false) :
    (s.webSocketEndpoint ≠ "" →
      openResult (s.webSocketEndpoint ++ webSocketEndpointSuffix) = true →
      (CompleteConnect s configuration
          (pureEnv openResult discoveryResponse)).1.webSocketEndpoint
        = s.webSocketEndpoint
      ∧ (CompleteConnect s configuration
          (pureEnv openResult discoveryResponse)).1.webSocket = true
      ∧ (CompleteConnect s configuration
          (pureEnv openResult discoveryResponse)).2.2 = true)
    ∧ ((s.webSocketEndpoint = ""
        ∨ openResult (s.webSocketEndpoint ++ webSocketEndpointSuffix) = false) →
      (CompleteConnect s configuration
          (pureEnv openResult discoveryResponse)).1.webSocketEndpoint
        = (if discoveryResponse.status ≠ 200 then ""
           else Json.asString (Json.index discoveryResponse.body "url"))
      ∧ ((CompleteConnect s configuration
            (pureEnv openResult discoveryResponse)).1.webSocketEndpoint = "" →
          (CompleteConnect s configuration
              (pureEnv openResult discoveryResponse)).2.2 = false
          ∧ (CompleteConnect s configuration
              (pureEnv openResult discoveryResponse)).1.webSocket = false)
      ∧ ((CompleteConnect s configuration
            (pureEnv openResult discoveryResponse)).1.webSocketEndpoint ≠ "" →
          (CompleteConnect s configuration
              (pureEnv openResult discoveryResponse)).1.webSocket
            = openResult ((CompleteConnect s configuration
                (pureEnv openResult discoveryResponse)).1.webSocketEndpoint
                ++ webSocketEndpointSuffix)
          ∧ (CompleteConnect s configuration
              (pureEnv openResult discoveryResponse)).2.2
            = (CompleteConnect s configuration
                (pureEnv openResult discoveryResponse)).1.webSocket)) :=
  CompleteConnect_facts s configuration openResult discoveryResponse hd hw

/-- C2 witness at the counterexample's inputs. -/
theorem claim_c2_witness :
    (initialState.webSocketEndpoint ≠ "" →
      c2Open (initialState.webSocketEndpoint ++ webSocketEndpointSuffix) = true →
      (CompleteConnect initialState sampleConfig
          (pureEnv c2Open c2Response)).1.webSocketEndpoint
        = initialState.webSocketEndpoint
      ∧ (CompleteConnect initialState sampleConfig
          (pureEnv c2Open c2Response)).1.webSocket = true
      ∧ (CompleteConnect initialState sampleConfig
          (pureEnv c2Open c2Response)).2.2 = true)
    ∧ ((initialState.webSocketEndpoint = ""
        ∨ c2Open (initialState.webSocketEndpoint ++ webSocketEndpointSuffix)
            = false) →
      (CompleteConnect initialState sampleConfig
          (pureEnv c2Open c2Response)).1.webSocketEndpoint
        = (if c2Response.status ≠ 200 then ""
           else Json.asString (Json.index c2Response.body "url"))
      ∧ ((CompleteConnect initialState sampleConfig
            (pureEnv c2Open c2Response)).1.webSocketEndpoint = "" →
          (CompleteConnect initialState sampleConfig
              (pureEnv c2Open c2Response)).2.2 = false
          ∧ (CompleteConnect initialState sampleConfig
              (pureEnv c2Open c2Response)).1.webSocket = false)
      ∧ ((CompleteConnect initialState sampleConfig
            (pureEnv c2Open c2Response)).1.webSocketEndpoint ≠ "" →
          (CompleteConnect initialState sampleConfig
              (pureEnv c2Open c2Response)).1.webSocket
            = c2Open ((CompleteConnect initialState sampleConfig
                (pureEnv c2Open c2Response)).1.webSocketEndpoint
                ++ webSocketEndpointSuffix)
          ∧ (CompleteConnect initialState sampleConfig
              (pureEnv c2Open c2Response)).2.2
            = (CompleteConnect initialState sampleConfig
                (pureEnv c2Open c2Response)).1.webSocket)) :=
  claim_c2 initialState sampleConfig c2Open c2Response rfl rfl

/-- A freshly constructed controller that has been given a
scheduler. -/
def c6State : GatewayState := {initialState with scheduler := true}

/-- A 200 discovery response whose body is an object lacking `url`. -/
def c6Response : Response :=
  ⟨200, Json.obj [("foo", Json.str "wss://x")]⟩

/-- C6: when the discovery request yields a non-200 status, or a 200
body that is not a JSON object with a string `url` member, the
Connect future resolves false and no stream is held. -/
theorem claim_c6 (s : GatewayState) (configuration : Configuration)
    (openResult : String → Bool) (discoveryResponse : Response)
    (hsch : s.scheduler = true) (hw : s.webSocket = false)
    (hc : s.connecting = false)
    (hreach : s.webSocketEndpoint = ""
      ∨ openResult (s.webSocketEndpoint ++ webSocketEndpointSuffix) = false)
    (hbad : discoveryResponse.status ≠ 200
      ∨ isGoodGatewayBody discoveryResponse.body = false) :
    (ConnectRun s configuration
      (pureEnv openResult discoveryResponse)).2.2 = false
    ∧ (ConnectRun s configuration
      (pureEnv openResult discoveryResponse)).1.webSocket = false := by
  have hurl : (if discoveryResponse.status ≠ 200 then ""
      else Json.asString (Json.index discoveryResponse.body "url")) = "" := by
    rcases hbad with h | h
    · simp [h]
    · by_cases hstat : discoveryResponse.status = 200
      · simp [hstat, badBody_url_empty _ h]
      · simp [hstat]
  have hfacts := (CompleteConnect_facts
    {s with closed := false, closeSignaled := false,
            connecting := true, disconnect := false}
    configuration openResult discoveryResponse rfl hw).2 hreach
  have hempty : (CompleteConnect
      {s with closed := false, closeSignaled := false,
              connecting := true, disconnect := false}
      configuration (pureEnv openResult discoveryResponse)).1.webSocketEndpoint
      = "" := by
    rw [hfacts.1]
    exact hurl
  have hres := hfacts.2.1 hempty
  have hconn : Connect s
      = ({s with closed := false, closeSignaled := false,
                 connecting := true, disconnect := false},
         [], ConnectOutcome.spawned) := by
    simp [Connect, hsch, hw, hc]
  simp only [ConnectRun, hconn, ConnectAsync]
  exact ⟨hres.1, hres.2⟩

/-- C6 witness: scenario S2's third bad body, an object lacking
`url`. -/
theorem claim_c6_witness :
    (ConnectRun c6State sampleConfig (pureEnv c2Open c6Response)).2.2 = false
    ∧ (ConnectRun c6State sampleConfig
        (pureEnv c2Open c6Response)).1.webSocket = false :=
  claim_c6 c6State sampleConfig c2Open c6Response rfl rfl rfl
    (Or.inl rfl) (Or.inr rfl)

/-- A Disconnect racing the discovery request makes a quietly started
`CompleteConnect` fail with the cancel delegate invoked. -/
theorem CompleteConnect_discovery_disc (s : GatewayState)
    (configuration : Configuration) (openResult : String → Bool)
    (discoveryResponse : Response)
    (hd : s.disconnect = false) (hw : s.webSocket = false)
    (hne : s.webSocketEndpoint = "") (hpc : s.proceedWithConnect = false) :
    (CompleteConnect s configuration
        {pureEnv openResult discoveryResponse with
          discoveryMid := disconnectMid}).2.2 = false
    ∧ (CompleteConnect s configuration
        {pureEnv openResult discoveryResponse with
          discoveryMid := disconnectMid}).1.webSocket = false
    ∧ (CompleteConnect s configuration
        {pureEnv openResult discoveryResponse with
          discoveryMid := disconnectMid}).2.1.any isCancelInvoked = true := by
  simp [CompleteConnect, GetGateway, pureEnv_proceedMid, pureEnv_cachedMid,
    pureEnv_discoveryMid, pureEnv_freshMid, pureEnv_helloMid,
    pureEnv_openResult, pureEnv_discoveryResponse, pureMid, hpc, hne, hd, hw,
    AwaitResourceRequest_disconnected, isCancelInvoked]

/-- A Disconnect racing the cached-URL stream open makes a quietly
started `CompleteConnect` fail with the cancel delegate invoked (the
follow-up discovery bails on the latched flag). -/
theorem CompleteConnect_cached_disc (s : GatewayState)
    (configuration : Configuration) (openResult : String → Bool)
    (discoveryResponse : Response)
    (hd : s.disconnect = false) (hw : s.webSocket = false)
    (hne : s.webSocketEndpoint ≠ "") (hpc : s.proceedWithConnect = false) :
    (CompleteConnect s configuration
        {pureEnv openResult discoveryResponse with
          cachedMid := disconnectMid}).2.2 = false
    ∧ (CompleteConnect s configuration
        {pureEnv openResult discoveryResponse with
          cachedMid := disconnectMid}).1.webSocket = false
    ∧ (CompleteConnect s configuration
        {pureEnv openResult discoveryResponse with
          cachedMid := disconnectMid}).2.1.any isCancelInvoked = true := by
  simp [CompleteConnect, GetGateway, pureEnv_proceedMid, pureEnv_cachedMid,
    pureEnv_discoveryMid, pureEnv_freshMid, pureEnv_helloMid,
    pureEnv_openResult, pureEnv_discoveryResponse, pureMid, hpc, hne, hd, hw,
    AwaitWebSocketRequest_disconnected, AwaitResourceRequest_latched,
    isCancelInvoked]

/-- A Disconnect racing the post-discovery stream open makes a quietly
started `CompleteConnect` fail with the cancel delegate invoked. -/
theorem CompleteConnect_fresh_disc (s : GatewayState)
    (configuration : Configuration) (openResult : String → Bool)
    (discoveryResponse : Response)
    (hd : s.disconnect = false) (hw : s.webSocket = false)
    (hne : s.webSocketEndpoint = "") (hpc : s.proceedWithConnect = false)
    (hstat : discoveryResponse.status = 200)
    (hurl : Json.asString (Json.index discoveryResponse.body "url") ≠ "") :
    (CompleteConnect s configuration
        {pureEnv openResult discoveryResponse with
          freshMid := disconnectMid}).2.2 = false
    ∧ (CompleteConnect s configuration
        {pureEnv openResult discoveryResponse with
          freshMid := disconnectMid}).1.webSocket = false
    ∧ (CompleteConnect s configuration
        {pureEnv openResult discoveryResponse with
          freshMid := disconnectMid}).2.1.any isCancelInvoked = true := by
  simp [CompleteConnect, pureEnv_proceedMid, pureEnv_cachedMid,
    pureEnv_discoveryMid, pureEnv_freshMid, pureEnv_helloMid,
    pureEnv_openResult, pureEnv_discoveryResponse, pureMid, hpc, hne, hd, hw,
    GetGateway_pure, hstat, hurl, AwaitWebSocketRequest_disconnected,
    FinishConnect, isCancelInvoked]

/-- C8: a Disconnect during any in-flight transport await invokes the
published cancel delegate and coerces the awaited result to the
failure sentinel (status 499 for requests, no stream for opens); a
connect interrupted at its discovery request, its cached-URL open, or
its post-discovery open therefore resolves false with no stream
held. -/
theorem claim_c8 :
    (∀ (s : GatewayState) (request : ResourceRequest) (raw : Response),
      s.disconnect = false → s.webSocket = false →
      (AwaitResourceRequest s request raw disconnectMid).2.2.status = 499
      ∧ (AwaitResourceRequest s request raw disconnectMid).2.1.any
          isCancelInvoked = true)
    ∧ (∀ (s : GatewayState) (uri : String) (raw : Bool),
      s.disconnect = false → s.webSocket = false →
      (AwaitWebSocketRequest s uri raw disconnectMid).2.2 = false
      ∧ (AwaitWebSocketRequest s uri raw disconnectMid).2.1.any
          isCancelInvoked = true)
    ∧ (∀ (s : GatewayState) (configuration : Configuration)
        (openResult : String → Bool) (discoveryResponse : Response),
      s.disconnect = false → s.webSocket = false →
      s.webSocketEndpoint = "" →
      (CompleteConnect s configuration
          {pureEnv openResult discoveryResponse with
            discoveryMid := disconnectMid}).2.2 = false
      ∧ (CompleteConnect s configuration
          {pureEnv openResult discoveryResponse with
            discoveryMid := disconnectMid}).1.webSocket = false
      ∧ (CompleteConnect s configuration
          {pureEnv openResult discoveryResponse with
            discoveryMid := disconnectMid}).2.1.any isCancelInvoked = true)
    ∧ (∀ (s : GatewayState) (configuration : Configuration)
        (openResult : String → Bool) (discoveryResponse : Response),
      s.disconnect = false → s.webSocket = false →
      s.webSocketEndpoint ≠ "" →
      (CompleteConnect s configuration
          {pureEnv openResult discoveryResponse with
            cachedMid := disconnectMid}).2.2 = false
      ∧ (CompleteConnect s configuration
          {pureEnv openResult discoveryResponse with
            cachedMid := disconnectMid}).1.webSocket = false
      ∧ (CompleteConnect s configuration
          {pureEnv openResult discoveryResponse with
            cachedMid := disconnectMid}).2.1.any isCancelInvoked = true)
    ∧ (∀ (s : GatewayState) (configuration : Configuration)
        (openResult : String → Bool) (discoveryResponse : Response),
      s.disconnect = false → s.webSocket = false →
      s.webSocketEndpoint = "" → discoveryResponse.status = 200 →
      Json.asString (Json.index discoveryResponse.body "url") ≠ "" →
      (CompleteConnect s configuration
          {pureEnv openResult discoveryResponse with
            freshMid := disconnectMid}).2.2 = false
      ∧ (CompleteConnect s configuration
          {pureEnv openResult discoveryResponse with
            freshMid := disconnectMid}).1.webSocket = false
      ∧ (CompleteConnect s configuration
          {pureEnv openResult discoveryResponse with
            freshMid := disconnectMid}).2.1.any isCancelInvoked = true) := by
  refine ⟨?_, ?_, ?_, ?_, ?_⟩
  · intro s request raw hd hw
    rw [AwaitResourceRequest_disconnected s request raw hd hw]
    exact ⟨rfl, by simp [isCancelInvoked]⟩
  · intro s uri raw hd hw
    rw [AwaitWebSocketRequest_disconnected s uri raw hd hw]
    exact ⟨rfl, by simp [isCancelInvoked]⟩
  · intro s configuration openResult discoveryResponse hd hw hne
    by_cases pc : s.proceedWithConnect = false
    · exact CompleteConnect_discovery_disc s configuration openResult
        discoveryResponse hd hw hne pc
    · rw [CompleteConnect_proceed_elim s configuration _ rfl]
      exact CompleteConnect_discovery_disc
        {s with proceedWithConnect := false} configuration openResult
        discoveryResponse hd hw hne rfl
  · intro s configuration openResult discoveryResponse hd hw hne
    by_cases pc : s.proceedWithConnect = false
    · exact CompleteConnect_cached_disc s configuration openResult
        discoveryResponse hd hw hne pc
    · rw [CompleteConnect_proceed_elim s configuration _ rfl]
      exact CompleteConnect_cached_disc
        {s with proceedWithConnect := false} configuration openResult
        discoveryResponse hd hw hne rfl
  · intro s configuration openResult discoveryResponse hd hw hne hstat hurl
    by_cases pc : s.proceedWithConnect = false
    · exact CompleteConnect_fresh_disc s configuration openResult
        discoveryResponse hd hw hne pc hstat hurl
    · rw [CompleteConnect_proceed_elim s configuration _ rfl]
      exact CompleteConnect_fresh_disc
        {s with proceedWithConnect := false} configuration openResult
        discoveryResponse hd hw hne rfl hstat hurl

/-- The discovery request the controller issues, and a cached-state
variant, for the C8 witness. -/
def c8Request : ResourceRequest :=
  ⟨"GET", "https://discordapp.com/api/v6/gateway", "agent"⟩

def c8CachedState : GatewayState :=
  {initialState with scheduler := true, webSocketEndpoint := "wss://y"}

/-- C8 witness: each interruption scenario at concrete inputs. -/
theorem claim_c8_witness :
    ((AwaitResourceRequest c6State c8Request c2Response
        disconnectMid).2.2.status = 499
      ∧ (AwaitResourceRequest c6State c8Request c2Response
          disconnectMid).2.1.any isCancelInvoked = true)
    ∧ ((AwaitWebSocketRequest c6State "wss://x/?v=6&encoding=json" true
        disconnectMid).2.2 = false
      ∧ (AwaitWebSocketRequest c6State "wss://x/?v=6&encoding=json" true
          disconnectMid).2.1.any isCancelInvoked = true)
    ∧ ((CompleteConnect c6State sampleConfig
          {pureEnv c2Open c2Response with
            discoveryMid := disconnectMid}).2.2 = false
      ∧ (CompleteConnect c6State sampleConfig
          {pureEnv c2Open c2Response with
            discoveryMid := disconnectMid}).1.webSocket = false
      ∧ (CompleteConnect c6State sampleConfig
          {pureEnv c2Open c2Response with
            discoveryMid := disconnectMid}).2.1.any isCancelInvoked = true)
    ∧ ((CompleteConnect c8CachedState sampleConfig
          {pureEnv c2Open c2Response with
            cachedMid := disconnectMid}).2.2 = false
      ∧ (CompleteConnect c8CachedState sampleConfig
          {pureEnv c2Open c2Response with
            cachedMid := disconnectMid}).1.webSocket = false
      ∧ (CompleteConnect c8CachedState sampleConfig
          {pureEnv c2Open c2Response with
            cachedMid := disconnectMid}).2.1.any isCancelInvoked = true)
    ∧ ((CompleteConnect c6State sampleConfig
          {pureEnv c2Open c2Response with
            freshMid := disconnectMid}).2.2 = false
      ∧ (CompleteConnect c6State sampleConfig
          {pureEnv c2Open c2Response with
            freshMid := disconnectMid}).1.webSocket = false
      ∧ (CompleteConnect c6State sampleConfig
          {pureEnv c2Open c2Response with
            freshMid := disconnectMid}).2.1.any isCancelInvoked = true) :=
  ⟨claim_c8.1 c6State c8Request c2Response rfl rfl,
   claim_c8.2.1 c6State "wss://x/?v=6&encoding=json" true rfl rfl,
   claim_c8.2.2.1 c6State sampleConfig c2Open c2Response rfl rfl rfl,
   claim_c8.2.2.2.1 c8CachedState sampleConfig c2Open c2Response rfl rfl
     (by decide),
   claim_c8.2.2.2.2 c6State sampleConfig c2Open c2Response rfl rfl rfl rfl
     (by decide)⟩

/-- C10 witness: a closed session with a stale token. -/
theorem claim_c10_witness :
    (SendHeartbeat {liveState with closed := true} 0 7).2.any isSendText = false
    ∧ (SendHeartbeat {liveState with closed := true} 0 7).2.any isSchedule = false
    ∧ ScheduleHeartbeat {liveState with closed := true} 7
      = ({liveState with closed := true}, []) :=
  claim_c10 {liveState with closed := true} 0 7 (Or.inr rfl)

end Discord
